/-
Verification of the `caelus-dts/circular-buffer` TypeScript library
(`src/index.ts`) against its natural-language specification.

The embedding below is a direct shallow translation of the two layers in
`src/index.ts`:

* `CBState` mirrors the private ring-state class: backing storage, the
  read/write cursors and the live-element counter, together with the raw
  slot operations (`readAtIndex`, `writeAtIndex`, cursor advancement),
  `write`, `read`, `clear`, `resize` and `toArray`.
* `CircularBuffer` mirrors the public facade: it owns the configuration
  and delegates to `CBState`, enforcing the overflow policy in `write`.

Modelling conventions:

* JavaScript `undefined` (array holes, the `undefined` written by `dump`,
  the empty-read indicator) is modelled as `none`; storage slots therefore
  hold `Option T` and `writeAtIndex` takes an `Option T`, matching the
  source's `writeAtIndex(index, undefined as T)` in `dump`.
* The backing array is modelled as a total map `Nat → Option T`: a fresh
  `new Array(capacity)` is `fun _ => none`, and JavaScript's automatic
  growth on out-of-range assignment is subsumed by the total map.
* `readAtIndex` guards `capacity = 0` explicitly: in JavaScript
  `index % 0` is `NaN` and `buffer[NaN]` reads `undefined`, so the read
  yields the empty marker whenever `capacity = 0`.
* Cursor advancement uses `Nat` arithmetic `(i + 1) % capacity`. For
  `capacity = 0` JavaScript produces `NaN` where Lean's `% 0` leaves the
  value unchanged; this divergence is unobservable through the API, since
  with `capacity = 0` every `readAtIndex` returns the empty marker, the
  count stays `0` (the state is permanently "full"), and the only way to
  change the capacity is `resize`, which resets both cursors.
* `CBState.elements` has a saturating setter (`Math.max(0, value)`); the
  only decrement, in `dump`, is modelled by truncated `Nat` subtraction,
  which agrees with `Math.max (0, n - 1)`.
* Console warnings are modelled as an emitted list of `Diag` values, and
  the `throw` of `BNCIS` (`BufferNewCapacityIsSmallerError`) as an
  `Except` error carrying the pair (requested capacity, current capacity),
  exactly the two numbers the error class receives.
-/
import Mathlib

namespace CircBuf

/-- The two console diagnostics `CircularBuffer.write` can emit. -/
inductive Diag where
  /-- Warning "Buffer is full. Data is being ignored. …". -/
  | fullWarn : Diag
  /-- Warning "Buffer is full. Oldest data is being overwritten.". -/
  | overwriteWarn : Diag
deriving DecidableEq, Repr

/-- Configuration record, after the constructor has applied the `??`
defaults (`overwrite ?? false`, `warnOnFull ?? true`,
`notifyOnOverwrite ?? false`). -/
structure CBConfig where
  overwrite : Bool
  warnOnFull : Bool
  notifyOnOverwrite : Bool
deriving DecidableEq, Repr

/-- The defaulted configuration produced from an empty `config` object. -/
def CBConfig.default : CBConfig :=
  { overwrite := false, warnOnFull := true, notifyOnOverwrite := false }

/-- The private ring-state class `CBState<T>` of `src/index.ts`. -/
structure CBState (T : Type) where
  capacity : Nat
  buffer : Nat → Option T
  writeIndex : Nat
  readIndex : Nat
  nElements : Nat

namespace CBState

variable {T : Type}

/-- Source `constructor(public capacity)`: fresh storage, cursors and count 0. -/
def mk0 (capacity : Nat) : CBState T :=
  { capacity := capacity
    buffer := fun _ => none
    writeIndex := 0
    readIndex := 0
    nElements := 0 }

/-- Getter `size` — returns the element counter. -/
def size (s : CBState T) : Nat := s.nElements

/-- Getter `isEmpty` — `size === 0`. -/
def isEmpty (s : CBState T) : Bool := s.size == 0

/-- Getter `isFull` — `size === capacity`. -/
def isFull (s : CBState T) : Bool := s.size == s.capacity

/-- Method `clear()` — fresh storage, cursors and count reset to 0. -/
def clear (s : CBState T) : CBState T :=
  { s with buffer := fun _ => none, writeIndex := 0, readIndex := 0, nElements := 0 }

/-- Method `readAtIndex(index)` — reads slot `index % capacity`. For
`capacity = 0` JavaScript computes `index % 0 = NaN` and `buffer[NaN]`
yields `undefined`, hence the explicit guard. -/
def readAtIndex (s : CBState T) (index : Nat) : Option T :=
  if s.capacity = 0 then none else s.buffer (index % s.capacity)

/-- Method `writeAtIndex(index, value)` — raw slot assignment, no modulo and no
bookkeeping; `value` is an `Option T` because `dump` stores `undefined`. -/
def writeAtIndex (s : CBState T) (index : Nat) (value : Option T) : CBState T :=
  { s with buffer := fun j => if j = index then value else s.buffer j }

/-- Method `incReadIndex()` — `readIndex = (readIndex + 1) % capacity`. -/
def incReadIndex (s : CBState T) : CBState T :=
  { s with readIndex := (s.readIndex + 1) % s.capacity }

/-- Method `incWriteIndex()` — `writeIndex = (writeIndex + 1) % capacity`. -/
def incWriteIndex (s : CBState T) : CBState T :=
  { s with writeIndex := (s.writeIndex + 1) % s.capacity }

/-- Method `read()` — reads the slot at `readIndex`, advances the read cursor;
the counter is NOT decremented. -/
def read (s : CBState T) : Option T × CBState T :=
  (s.readAtIndex s.readIndex, s.incReadIndex)

/-- Method `write(value)` — stores at `writeIndex`, increments the counter only
when not full, always advances the write cursor. -/
def write (s : CBState T) (value : T) : CBState T :=
  let s1 := s.writeAtIndex s.writeIndex (some value)
  let s2 := if s1.isFull then s1 else { s1 with nElements := s1.nElements + 1 }
  s2.incWriteIndex

/-- Method `resize(newCapacity, force)` — errors with the `BNCIS` payload
`(newCapacity, capacity)` when shrinking without `force` (the `throw`
happens before any mutation); otherwise copies the slots read at raw
indices `0 … min(newCapacity, size) - 1` into fresh storage and resets
the cursors and the counter. -/
def resize (s : CBState T) (newCapacity : Nat) (force : Bool) :
    Except (Nat × Nat) (CBState T) :=
  if ¬force ∧ newCapacity < s.capacity then
    .error (newCapacity, s.capacity)
  else
    let numElementsToCopy := min newCapacity s.size
    .ok { capacity := newCapacity
          buffer := fun j => if j < numElementsToCopy then s.readAtIndex j else none
          writeIndex := numElementsToCopy
          readIndex := 0
          nElements := numElementsToCopy }

/-- Method `toArray()` — `result.push(readAtIndex(i))` for `i = 0 … size-1`;
no state change. -/
def toArray (s : CBState T) : List (Option T) :=
  (List.range s.size).map (fun i => s.readAtIndex i)

end CBState

/-- The public facade class `CircularBuffer<T>` of `src/index.ts`. -/
structure CircularBuffer (T : Type) where
  config : CBConfig
  bufferState : CBState T

namespace CircularBuffer

variable {T : Type}

/-- Source `constructor(capacity, config)` (with the `??` defaults already
applied to `config`); capacity is NOT validated. -/
def mk0 (capacity : Nat) (config : CBConfig) : CircularBuffer T :=
  { config := config, bufferState := CBState.mk0 capacity }

/-- Getter `capacity`. -/
def capacity (b : CircularBuffer T) : Nat := b.bufferState.capacity

/-- Getter `isEmpty` of the facade. -/
def isEmpty (b : CircularBuffer T) : Bool := b.bufferState.isEmpty

/-- Getter `isFull` of the facade. -/
def isFull (b : CircularBuffer T) : Bool := b.bufferState.isFull

/-- Getter `size` of the facade. -/
def size (b : CircularBuffer T) : Nat := b.bufferState.size

/-- Method `clear()` of the facade. -/
def clear (b : CircularBuffer T) : CircularBuffer T :=
  { b with bufferState := b.bufferState.clear }

/-- Method `read()` — `undefined` when empty, otherwise delegates to the ring
state's cursor-advancing read. -/
def read (b : CircularBuffer T) : Option T × CircularBuffer T :=
  if b.isEmpty then (none, b)
  else
    let (v, s) := b.bufferState.read
    (v, { b with bufferState := s })

/-- Method `dump()` — `undefined` when empty; otherwise reads the slot at the
read cursor, overwrites that slot with `undefined`, decrements the
counter (through the saturating setter) and advances the read cursor. -/
def dump (b : CircularBuffer T) : Option T × CircularBuffer T :=
  if b.isEmpty then (none, b)
  else
    let value := b.bufferState.readAtIndex b.bufferState.readIndex
    let s1 := b.bufferState.writeAtIndex b.bufferState.readIndex none
    let s2 := { s1 with nElements := s1.nElements - 1 }
    let s3 := s2.incReadIndex
    (value, { b with bufferState := s3 })

/-- Method `write(value)` — the overflow policy of the facade, returning the
updated buffer together with the list of emitted diagnostics. -/
def write (b : CircularBuffer T) (value : T) : CircularBuffer T × List Diag :=
  if ¬b.config.overwrite ∧ b.isFull ∧ b.config.warnOnFull then
    (b, [Diag.fullWarn])
  else if b.config.overwrite ∨ b.bufferState.writeIndex < b.capacity then
    let s := b.bufferState.write value
    let diags := if b.config.notifyOnOverwrite ∧ s.writeIndex = 0 then
        [Diag.overwriteWarn] else []
    ({ b with bufferState := s }, diags)
  else
    (b, [])

/-- Method `writeAll(values)` — applies `write` per element, in order (the
emitted diagnostics are dropped here; claims about diagnostics are
stated through single `write` steps). -/
def writeAll (b : CircularBuffer T) (values : List T) : CircularBuffer T :=
  values.foldl (fun acc v => (acc.write v).1) b

/-- Method `toArray(clear)` — converts the ring state to an array and, when
`clear` is set, clears the buffer afterwards. -/
def toArray (b : CircularBuffer T) (clearAfter : Bool) :
    List (Option T) × CircularBuffer T :=
  let result := b.bufferState.toArray
  (result, if clearAfter then b.clear else b)

/-- Method `resize(newCapacity, force)` — delegates to the ring state. -/
def resize (b : CircularBuffer T) (newCapacity : Nat) (force : Bool) :
    Except (Nat × Nat) (CircularBuffer T) :=
  (b.bufferState.resize newCapacity force).map
    (fun s => { b with bufferState := s })

end CircularBuffer

/-- Modelled from the spec (§3, "Logical element at offset `i` … maps to
physical slot `(readCursor + i) mod capacity`" and §4.1 `toSequence`):
the sequence the spec says `toSequence` produces — the `count` live
logical elements, the `i`-th taken from physical slot
`(readCursor + i) mod capacity`. Used only to compare the spec's stated
ordering with the source's `toArray`, which indexes from raw `i`. -/
def specLogicalSeq {T : Type} (s : CBState T) : List (Option T) :=
  (List.range s.size).map (fun i => s.buffer ((s.readIndex + i) % s.capacity))

/-- The state invariant of spec §3, amended to what the code maintains:
the counter never exceeds the capacity, and for a positive capacity the
read cursor stays in `[0, capacity)` while the write cursor stays in
`[0, capacity]` (it can equal `capacity` right after a `resize`). -/
def Inv {T : Type} (s : CBState T) : Prop :=
  s.nElements ≤ s.capacity ∧
    (0 < s.capacity → s.readIndex < s.capacity ∧ s.writeIndex ≤ s.capacity)

end CircBuf

namespace CircBuf

instance {T : Type} (s : CBState T) : Decidable (Inv s) := by
  unfold Inv
  infer_instance

/-- Helper: `CBState.write` preserves the state invariant. -/
theorem cbstate_write_inv {T : Type} (s : CBState T) (v : T) (h : Inv s) :
    Inv (s.write v) := by
  obtain ⟨h1, h2⟩ := h
  by_cases hf : s.nElements = s.capacity
  · simp [CBState.write, CBState.writeAtIndex, CBState.incWriteIndex, CBState.isFull,
      CBState.size, hf, Inv]
    intro hc
    exact ⟨(h2 hc).1, Nat.le_of_lt (Nat.mod_lt _ hc)⟩
  · simp [CBState.write, CBState.writeAtIndex, CBState.incWriteIndex, CBState.isFull,
      CBState.size, hf, Inv]
    constructor
    · omega
    · intro hc
      exact ⟨(h2 hc).1, Nat.le_of_lt (Nat.mod_lt _ hc)⟩

/-- Helper: the facade `write` preserves the state invariant. -/
theorem facade_write_inv {T : Type} (b : CircularBuffer T) (v : T)
    (h : Inv b.bufferState) : Inv ((b.write v).1).bufferState := by
  unfold CircularBuffer.write
  split
  · exact h
  · split
    · exact cbstate_write_inv _ _ h
    · exact h

/-- Helper: the facade `read` preserves the state invariant. -/
theorem read_inv {T : Type} (b : CircularBuffer T) (h : Inv b.bufferState) :
    Inv ((b.read).2).bufferState := by
  unfold CircularBuffer.read
  split
  · exact h
  · obtain ⟨h1, h2⟩ := h
    exact ⟨h1, fun hc => ⟨Nat.mod_lt _ hc, (h2 hc).2⟩⟩

/-- Helper: the facade `dump` preserves the state invariant. -/
theorem dump_inv {T : Type} (b : CircularBuffer T) (h : Inv b.bufferState) :
    Inv ((b.dump).2).bufferState := by
  unfold CircularBuffer.dump
  split
  · exact h
  · obtain ⟨h1, h2⟩ := h
    refine ⟨?_, fun hc => ⟨?_, ?_⟩⟩
    · simp [CBState.incReadIndex, CBState.writeAtIndex]
      omega
    · simpa [CBState.incReadIndex, CBState.writeAtIndex] using Nat.mod_lt _ hc
    · simpa [CBState.incReadIndex, CBState.writeAtIndex] using (h2 hc).2

/-- Helper: the facade `clear` establishes the state invariant. -/
theorem clear_inv {T : Type} (b : CircularBuffer T) :
    Inv ((b.clear)).bufferState :=
  ⟨Nat.zero_le _, fun h => ⟨h, Nat.zero_le _⟩⟩

/-- Helper: a successful facade `resize` establishes the state invariant
unconditionally. -/
theorem resize_inv {T : Type} (b : CircularBuffer T) (n : Nat) (f : Bool)
    (b' : CircularBuffer T) (h : b.resize n f = .ok b') :
    Inv b'.bufferState := by
  unfold CircularBuffer.resize CBState.resize at h
  split at h
  · simp [Except.map] at h
  · simp [Except.map] at h
    refine h ▸ ⟨?_, fun hc => ⟨hc, ?_⟩⟩ <;> simp [Nat.min_le_left]

/-- Helper: the facade `writeAll` preserves the state invariant. -/
theorem writeAll_inv {T : Type} (b : CircularBuffer T) (vs : List T)
    (h : Inv b.bufferState) : Inv (b.writeAll vs).bufferState := by
  induction vs generalizing b with
  | nil => exact h
  | cons v vs ih =>
      simpa [CircularBuffer.writeAll] using ih _ (facade_write_inv b v h)

/-- Helper: the facade `toArray` preserves the state invariant. -/
theorem toArray_inv {T : Type} (b : CircularBuffer T) (c : Bool)
    (h : Inv b.bufferState) : Inv ((b.toArray c).2).bufferState := by
  unfold CircularBuffer.toArray
  split
  · exact clear_inv b
  · exact h

/-- Helper: the constructor establishes the state invariant. -/
theorem mk0_inv {T : Type} (cap : Nat) (cfg : CBConfig) :
    Inv ((CircularBuffer.mk0 cap cfg : CircularBuffer T)).bufferState := by
  refine ⟨Nat.zero_le _, fun h => ⟨h, Nat.zero_le _⟩⟩

/-- Helper for C10: a write to a capacity-0 buffer leaves the capacity 0
and the size 0 ("full" at size 0, so the counter is never incremented). -/
theorem write_cap0 {T : Type} (b : CircularBuffer T) (v : T)
    (hc : b.capacity = 0) (hs : b.size = 0) :
    ((b.write v).1).capacity = 0 ∧ ((b.write v).1).size = 0 := by
  unfold CircularBuffer.write
  split
  · exact ⟨hc, hs⟩
  · split
    · simp [CBState.write, CBState.writeAtIndex, CBState.incWriteIndex, CBState.isFull,
        CBState.size, CircularBuffer.capacity, CircularBuffer.size] at *
      simp [hs, hc]
    · exact ⟨hc, hs⟩

/-- Helper for C10: any sequence of writes to a capacity-0 buffer leaves
the capacity 0 and the size 0. -/
theorem writeAll_cap0 {T : Type} (b : CircularBuffer T) (vs : List T)
    (hc : b.capacity = 0) (hs : b.size = 0) :
    (b.writeAll vs).capacity = 0 ∧ (b.writeAll vs).size = 0 := by
  induction vs generalizing b with
  | nil => exact ⟨hc, hs⟩
  | cons v vs ih =>
      have h := write_cap0 b v hc hs
      simpa [CircularBuffer.writeAll] using ih _ h.1 h.2

/-- Characterization of the overwrite diagnostic actually implemented by
`CircularBuffer.write`: it is emitted exactly when the full-buffer
rejection guard does not fire, the write is performed, `notifyOnOverwrite`
is set and the post-write cursor is 0 — the `overwrite` flag itself is
NOT consulted by the emission condition. -/
theorem write_overwriteWarn_iff {T : Type} (b : CircularBuffer T) (v : T) :
    (b.write v).2 = [Diag.overwriteWarn] ↔
      (¬(b.config.overwrite = false ∧ b.isFull = true ∧ b.config.warnOnFull = true) ∧
        (b.config.overwrite = true ∨ b.bufferState.writeIndex < b.capacity) ∧
        b.config.notifyOnOverwrite = true ∧ (b.bufferState.write v).writeIndex = 0) := by
  by_cases ho : b.config.overwrite = true <;>
  by_cases hf : b.isFull = true <;>
  by_cases hw : b.config.warnOnFull = true <;>
  by_cases hn : b.config.notifyOnOverwrite = true <;>
  by_cases hwi : b.bufferState.writeIndex < b.capacity <;>
  by_cases hz : (b.bufferState.write v).writeIndex = 0 <;>
  simp_all [CircularBuffer.write] <;>
  (rw [if_neg (Nat.not_lt.mpr hwi)]; simp; try omega)

/-- Claim C1, counterexample: a capacity-1 buffer with `overwrite = false`
and `warnOnFull = false`, already full with value 1, does NOT reject a
further `write 2`: the stored content changes from `[1]` to `[2]`, so the
rejection is not independent of `warnOnFull`. -/
theorem claim_C1_counterexample :
    (((CircularBuffer.mk0 1 ⟨false, false, false⟩ : CircularBuffer Nat).write 1).1).isFull
        = true ∧
    ((((CircularBuffer.mk0 1 ⟨false, false, false⟩ : CircularBuffer Nat).write 1).1).toArray
        false).1 = [some 1] ∧
    ((((((CircularBuffer.mk0 1 ⟨false, false, false⟩ : CircularBuffer Nat).write 1).1).write
        2).1).toArray false).1 = [some 2] := by
  decide

/-- Claim C1, amended: for a buffer with `overwrite = false` that is at
full capacity AND has `warnOnFull = true`, `write value` rejects the
write for every value: the buffer is returned unchanged (so `toSequence`
and `size` are unchanged) and the full-buffer diagnostic is emitted. -/
theorem claim_C1_theorem {T : Type} (b : CircularBuffer T) (v : T)
    (h1 : b.config.overwrite = false) (h2 : b.isFull = true)
    (h3 : b.config.warnOnFull = true) :
    b.write v = (b, [Diag.fullWarn]) := by
  simp [CircularBuffer.write, h1, h2, h3]

/-- Claim C1, witness: the amended rejection at a concrete full
capacity-1 buffer with the default configuration. -/
theorem claim_C1_witness :
    (((CircularBuffer.mk0 1 CBConfig.default : CircularBuffer Nat).write 1).1).write 2 =
      ((((CircularBuffer.mk0 1 CBConfig.default : CircularBuffer Nat).write 1).1),
        [Diag.fullWarn]) :=
  claim_C1_theorem _ 2 (by decide) (by decide) (by decide)

/-- Claim C2, counterexample: a capacity-2 buffer holding one live
element (the value 2, at the read cursor) after `write 1; write 2; dump`,
resized to the larger capacity 3, does NOT preserve its live element:
the resized content is `[none]` — the element 2 is lost, because `resize`
copies raw physical slots `0 … count-1`, not the logical elements at
`readCursor + i`. -/
theorem claim_C2_counterexample :
    ((CircularBuffer.writeAll (CircularBuffer.mk0 2 CBConfig.default : CircularBuffer Nat)
        [1, 2]).dump).2.capacity = 2 ∧
    ((CircularBuffer.writeAll (CircularBuffer.mk0 2 CBConfig.default : CircularBuffer Nat)
        [1, 2]).dump).2.size = 1 ∧
    (((CircularBuffer.writeAll (CircularBuffer.mk0 2 CBConfig.default : CircularBuffer Nat)
        [1, 2]).dump).2).bufferState.readAtIndex
      ((((CircularBuffer.writeAll (CircularBuffer.mk0 2 CBConfig.default : CircularBuffer Nat)
        [1, 2]).dump).2)).bufferState.readIndex = some 2 ∧
    (((((CircularBuffer.writeAll (CircularBuffer.mk0 2 CBConfig.default : CircularBuffer Nat)
        [1, 2]).dump).2).resize 3 false).map (fun b => (b.toArray false).1)).toOption =
      some [none] := by
  decide

/-- Claim C2, amended: for every buffer whose read cursor is 0 (as after
any sequence of plain writes since construction or `clear`) with
`count ≤ capacity ≤ newCapacity`, `resize newCapacity` succeeds and
preserves all live elements and their logical oldest-first order (both
`toSequence` and the cursor-relative logical sequence are unchanged);
afterwards `readCursor = 0`, `writeCursor = count`, the capacity is
`newCapacity`, and a subsequent write fills the next newly available slot
without affecting the preserved elements. -/
theorem claim_C2_theorem {T : Type} (b : CircularBuffer T) (newCap : Nat)
    (hr : b.bufferState.readIndex = 0)
    (hn : b.size ≤ b.capacity)
    (hc : b.capacity ≤ newCap) :
    ∃ b', b.resize newCap false = .ok b' ∧
      (b'.toArray false).1 = (b.toArray false).1 ∧
      b'.bufferState.readIndex = 0 ∧
      b'.bufferState.writeIndex = b.size ∧
      b'.capacity = newCap ∧
      b'.size = b.size ∧
      specLogicalSeq b'.bufferState = specLogicalSeq b.bufferState ∧
      ∀ v : T, b.size < newCap →
        (((b'.write v).1).toArray false).1 = (b.toArray false).1 ++ [some v] := by
  have hsz : b.size = b.bufferState.nElements := rfl
  have hcap : b.capacity = b.bufferState.capacity := rfl
  have hle : b.bufferState.nElements ≤ newCap := by omega
  have hmin : min newCap b.bufferState.size = b.bufferState.nElements :=
    Nat.min_eq_right hle
  refine ⟨⟨b.config,
    ⟨newCap,
      fun j => if j < b.bufferState.nElements then b.bufferState.readAtIndex j else none,
      b.bufferState.nElements, 0, b.bufferState.nElements⟩⟩, ?_, ?_, rfl, rfl, rfl, rfl,
      ?_, ?_⟩
  · simp [CircularBuffer.resize, CBState.resize, Except.map,
      show ¬(newCap < b.bufferState.capacity) from by omega, hmin]
  · simp only [CircularBuffer.toArray, CBState.toArray, CBState.size]
    refine List.map_congr_left (fun i hi => ?_)
    rw [List.mem_range] at hi
    have hnc : newCap ≠ 0 := by omega
    simp [CBState.readAtIndex, hnc, Nat.mod_eq_of_lt (show i < newCap from by omega), hi]
  · simp only [specLogicalSeq, CBState.size]
    refine List.map_congr_left (fun i hi => ?_)
    rw [List.mem_range] at hi
    have hcb : b.bufferState.capacity ≠ 0 := by omega
    have hnc : newCap ≠ 0 := by omega
    simp [hr, CBState.readAtIndex, hcb, hnc,
      Nat.mod_eq_of_lt (show i < newCap from by omega), hi]
  · intro v hv
    have hne : b.bufferState.nElements ≠ newCap := by omega
    have hwlt : b.bufferState.nElements < newCap := by omega
    simp only [CircularBuffer.write, CircularBuffer.isFull, CBState.isFull,
      CircularBuffer.capacity, CBState.size]
    rw [if_neg (by simp [hne]), if_pos (Or.inr hwlt)]
    simp only [CBState.write, CBState.writeAtIndex, CBState.isFull, CBState.size,
      CBState.incWriteIndex]
    rw [if_neg (by simp [hne])]
    simp only [CircularBuffer.toArray, CBState.toArray, CBState.size]
    rw [List.range_succ, List.map_append]
    congr 1
    · refine List.map_congr_left (fun i hi => ?_)
      rw [List.mem_range] at hi
      have hnc : newCap ≠ 0 := by omega
      simp [CBState.readAtIndex, hnc, Nat.mod_eq_of_lt (show i < newCap from by omega),
        Nat.ne_of_lt (show i < b.bufferState.nElements from hi), hi]
    · have hnc : newCap ≠ 0 := by omega
      simp [CBState.readAtIndex, hnc, Nat.mod_eq_of_lt hwlt]

/-- Claim C2, witness: the amended resize at the repository's own test
scenario — capacity 3 holding `[1,2,3]`, resized to 5. -/
theorem claim_C2_witness :
    ∃ b', (CircularBuffer.writeAll (CircularBuffer.mk0 3 CBConfig.default : CircularBuffer Nat)
        [1, 2, 3]).resize 5 false = .ok b' ∧
      (b'.toArray false).1 = ((CircularBuffer.writeAll
        (CircularBuffer.mk0 3 CBConfig.default : CircularBuffer Nat) [1, 2, 3]).toArray
          false).1 ∧
      b'.bufferState.readIndex = 0 ∧
      b'.bufferState.writeIndex = (CircularBuffer.writeAll
        (CircularBuffer.mk0 3 CBConfig.default : CircularBuffer Nat) [1, 2, 3]).size ∧
      b'.capacity = 5 ∧
      b'.size = (CircularBuffer.writeAll
        (CircularBuffer.mk0 3 CBConfig.default : CircularBuffer Nat) [1, 2, 3]).size ∧
      specLogicalSeq b'.bufferState = specLogicalSeq (CircularBuffer.writeAll
        (CircularBuffer.mk0 3 CBConfig.default : CircularBuffer Nat)
        [1, 2, 3]).bufferState ∧
      ∀ v : Nat, (CircularBuffer.writeAll
          (CircularBuffer.mk0 3 CBConfig.default : CircularBuffer Nat) [1, 2, 3]).size < 5 →
        (((b'.write v).1).toArray false).1 = ((CircularBuffer.writeAll
          (CircularBuffer.mk0 3 CBConfig.default : CircularBuffer Nat) [1, 2, 3]).toArray
            false).1 ++ [some v] :=
  claim_C2_theorem _ 5 (by decide) (by decide) (by decide)

end CircBuf

namespace CircBuf

/-- Claim C3, counterexample: after `write 1; write 2; dump` on a
capacity-2 buffer, the read cursor is 1 and the single live element
(the value 2) sits at physical slot `(readCursor + 0) mod 2 = 1`, yet
`toArray` returns `[none]` — the content of raw slot 0 — not the element
at `(readCursor + i) mod capacity`. -/
theorem claim_C3_counterexample :
    ((CircularBuffer.writeAll (CircularBuffer.mk0 2 CBConfig.default : CircularBuffer Nat)
        [1, 2]).dump).2.bufferState.readIndex = 1 ∧
    ((CircularBuffer.writeAll (CircularBuffer.mk0 2 CBConfig.default : CircularBuffer Nat)
        [1, 2]).dump).2.size = 1 ∧
    ((((CircularBuffer.writeAll (CircularBuffer.mk0 2 CBConfig.default : CircularBuffer Nat)
        [1, 2]).dump).2.toArray false)).1 = [none] ∧
    specLogicalSeq ((CircularBuffer.writeAll
        (CircularBuffer.mk0 2 CBConfig.default : CircularBuffer Nat)
        [1, 2]).dump).2.bufferState = [some 2] := by
  decide

/-- Claim C3, amended: `toArray` (with `clearAfter` false) returns
exactly `count` elements and leaves the buffer unmodified, but the `i`-th
returned element is the content of physical slot `i mod capacity` — the
indexing starts at raw slot 0 and ignores the read cursor. -/
theorem claim_C3_theorem {T : Type} (b : CircularBuffer T) :
    ((b.toArray false).1).length = b.size ∧
    (b.toArray false).2 = b ∧
    ∀ i, i < b.size → ((b.toArray false).1).get? i = some (b.bufferState.readAtIndex i) := by
  refine ⟨?_, rfl, fun i hi => ?_⟩
  · simp [CircularBuffer.toArray, CBState.toArray, CircularBuffer.size, CBState.size]
  · simp [CircularBuffer.toArray, CBState.toArray, List.get?_eq_getElem?, List.getElem?_map,
      List.getElem?_range (show i < b.bufferState.size from hi)]

/-- Claim C3, witness: the amended `toArray` indexing at the overwrite
scenario of the repository's README. -/
theorem claim_C3_witness :
    (((CircularBuffer.writeAll (CircularBuffer.mk0 3 ⟨true, true, false⟩ : CircularBuffer Nat)
        [1, 2, 3, 4]).toArray false).1).get? 0 =
      some ((CircularBuffer.writeAll
        (CircularBuffer.mk0 3 ⟨true, true, false⟩ : CircularBuffer Nat)
        [1, 2, 3, 4]).bufferState.readAtIndex 0) :=
  (claim_C3_theorem _).2.2 0 (by decide)

/-- Claim C4 (code bug): with `overwrite = false` and
`notifyOnOverwrite = true`, a single `write 7` into a fresh capacity-1
buffer already emits the overwrite diagnostic — the emission condition
checks only `notifyOnOverwrite` and the post-write cursor, never the
`overwrite` flag, contradicting the option's own documentation
("only takes action if the buffer's overwrite option is set to true")
and the diagnostic's text (nothing was overwritten). -/
theorem claim_C4_theorem :
    (CBConfig.mk false true true).overwrite = false ∧
    ((CircularBuffer.mk0 1 (CBConfig.mk false true true) : CircularBuffer Nat).write 7).2 =
      [Diag.overwriteWarn] := by
  decide

/-- Claim C5, counterexample: the claim bounds `writeCursor` in
`[0, capacity)` for every reachable state, but `writeAll [1,2,3]` into a
fresh capacity-3 buffer followed by `resize 3` (a legal, non-shrinking
resize) reaches a state with `writeCursor = 3 = capacity`. -/
theorem claim_C5_counterexample :
    (((CircularBuffer.writeAll (CircularBuffer.mk0 3 CBConfig.default : CircularBuffer Nat)
        [1, 2, 3]).resize 3 false).map
      (fun b => (b.bufferState.writeIndex, b.capacity))).toOption = some (3, 3) := by
  rfl

/-- Claim C5, amended: for every reachable buffer state, `count` is in
`[0, capacity]`, and whenever the capacity is positive the read cursor is
in `[0, capacity)` and the write cursor in `[0, capacity]` (it can equal
`capacity` only right after a `resize`); the constructor establishes
these bounds and every public operation — `write`, `writeAll`, `read`,
`dump`, `clear`, `resize`, `toArray` — preserves them. (A capacity-0
buffer, which the constructor permits, carries no cursor bound.) -/
theorem claim_C5_theorem (T : Type) :
    (∀ (cap : Nat) (cfg : CBConfig),
      Inv ((CircularBuffer.mk0 cap cfg : CircularBuffer T)).bufferState) ∧
    (∀ (b : CircularBuffer T) (v : T),
      Inv b.bufferState → Inv (((b.write v)).1).bufferState) ∧
    (∀ (b : CircularBuffer T) (vs : List T),
      Inv b.bufferState → Inv ((b.writeAll vs)).bufferState) ∧
    (∀ b : CircularBuffer T, Inv b.bufferState → Inv (((b.read)).2).bufferState) ∧
    (∀ b : CircularBuffer T, Inv b.bufferState → Inv (((b.dump)).2).bufferState) ∧
    (∀ b : CircularBuffer T, Inv ((b.clear)).bufferState) ∧
    (∀ (b : CircularBuffer T) (n : Nat) (f : Bool) (b' : CircularBuffer T),
      b.resize n f = .ok b' → Inv b'.bufferState) ∧
    (∀ (b : CircularBuffer T) (c : Bool),
      Inv b.bufferState → Inv (((b.toArray c)).2).bufferState) :=
  ⟨mk0_inv, facade_write_inv, writeAll_inv, read_inv, dump_inv, clear_inv,
    resize_inv, toArray_inv⟩

/-- Claim C5, witness: the bounds hold after a concrete write into a
fresh capacity-3 buffer. -/
theorem claim_C5_witness :
    Inv ((((CircularBuffer.mk0 3 CBConfig.default : CircularBuffer Nat)).write
      1)).1.bufferState :=
  (claim_C5_theorem Nat).2.1 _ 1 (by decide)

/-- Claim C6, counterexample: after `write 1; read` on a capacity-2
buffer the state is non-empty (`size = 1`), yet the next `read` returns
the empty indicator: the read cursor has rotated onto a never-written
slot, because `read` advances the cursor without decrementing the
count. -/
theorem claim_C6_counterexample :
    (((((CircularBuffer.mk0 2 CBConfig.default : CircularBuffer Nat).write 1).1).read).2).isEmpty
        = false ∧
    (((((CircularBuffer.mk0 2 CBConfig.default : CircularBuffer Nat).write 1).1).read).2).size
        = 1 ∧
    ((((((CircularBuffer.mk0 2 CBConfig.default : CircularBuffer Nat).write
        1).1).read).2).read).1 = none := by
  decide

/-- Claim C6, amended: `read` returns the empty indicator and leaves the
buffer unchanged when the buffer is empty; on a non-empty buffer it
returns the content of the slot at the read cursor — a stored element
when that slot is occupied, but possibly the empty indicator itself,
since `read` rotates the cursor without consuming elements and can land
on a vacant slot. -/
theorem claim_C6_theorem {T : Type} (b : CircularBuffer T) :
    (b.isEmpty = true → b.read = (none, b)) ∧
    (b.isEmpty = false →
      (b.read).1 = b.bufferState.readAtIndex b.bufferState.readIndex) := by
  constructor
  · intro h
    simp [CircularBuffer.read, h]
  · intro h
    simp [CircularBuffer.read, CBState.read, h]

/-- Claim C6, witness: both branches of the amended `read` at concrete
buffers — a fresh empty capacity-2 buffer, and the same buffer holding
one written element. -/
theorem claim_C6_witness :
    (CircularBuffer.mk0 2 CBConfig.default : CircularBuffer Nat).read =
      (none, CircularBuffer.mk0 2 CBConfig.default) ∧
    ((((CircularBuffer.mk0 2 CBConfig.default : CircularBuffer Nat).write 1).1).read).1 =
      (((CircularBuffer.mk0 2 CBConfig.default : CircularBuffer Nat).write
        1).1).bufferState.readAtIndex
        ((((CircularBuffer.mk0 2 CBConfig.default : CircularBuffer Nat).write
          1).1)).bufferState.readIndex :=
  ⟨(claim_C6_theorem _).1 (by decide), (claim_C6_theorem _).2 (by decide)⟩

/-- Claim C7 (confirmed): `resize newCapacity` without `force`, with
`newCapacity` strictly below the current capacity, fails with the
`BNCIS` (`CapacityShrinkError`) payload carrying exactly the requested
and the current capacity; the error is raised before any mutation, so
capacity, size and content are untouched (the `Except.error` result
carries no successor state). -/
theorem claim_C7_theorem {T : Type} (b : CircularBuffer T) (n : Nat)
    (h : n < b.capacity) :
    b.resize n false = .error (n, b.capacity) := by
  simp [CircularBuffer.resize, CBState.resize, CircularBuffer.capacity, Except.map] at *
  simp [h]

/-- Claim C7, witness: shrinking a fresh capacity-3 buffer to 2 fails
with the payload `(2, 3)`. -/
theorem claim_C7_witness :
    (CircularBuffer.mk0 3 CBConfig.default : CircularBuffer Nat).resize 2 false =
      .error (2, (CircularBuffer.mk0 3 CBConfig.default : CircularBuffer Nat).capacity) :=
  claim_C7_theorem _ 2 (by decide)

/-- Claim C8 (confirmed): `dump` on an empty buffer returns the empty
indicator and leaves the buffer (hence its size, 0) unchanged; on a
non-empty buffer it returns the element at the read cursor, clears that
slot, decrements the count by one and advances the read cursor; and
concretely, after three `dump`s on a full 3-element buffer the size is 0
and a fourth `dump` returns the empty indicator. -/
theorem claim_C8_theorem {T : Type} :
    (∀ b : CircularBuffer T, b.isEmpty = true → b.dump = (none, b)) ∧
    (∀ b : CircularBuffer T, b.isEmpty = false →
      (b.dump).1 = b.bufferState.readAtIndex b.bufferState.readIndex ∧
      ((b.dump).2).bufferState.buffer b.bufferState.readIndex = none ∧
      ((b.dump).2).size = b.size - 1 ∧
      ((b.dump).2).bufferState.readIndex =
        (b.bufferState.readIndex + 1) % b.capacity) ∧
    (((((CircularBuffer.writeAll (CircularBuffer.mk0 3 CBConfig.default : CircularBuffer Nat)
        [1, 2, 3]).dump).2.dump).2.dump).2.size = 0 ∧
      ((((((CircularBuffer.writeAll (CircularBuffer.mk0 3 CBConfig.default : CircularBuffer Nat)
        [1, 2, 3]).dump).2.dump).2.dump).2.dump)).1 = none) := by
  refine ⟨fun b h => ?_, fun b h => ?_, by decide, by decide⟩
  · simp [CircularBuffer.dump, h]
  · simp [CircularBuffer.dump, h, CBState.writeAtIndex, CBState.incReadIndex,
      CircularBuffer.size, CBState.size, CircularBuffer.capacity]

/-- Claim C8, witness: `dump` on a concrete empty capacity-2 buffer
returns the empty indicator and the unchanged buffer. -/
theorem claim_C8_witness :
    (CircularBuffer.mk0 2 CBConfig.default : CircularBuffer Nat).dump =
      (none, CircularBuffer.mk0 2 CBConfig.default) :=
  claim_C8_theorem.1 _ (by decide)

/-- Claim C9 (confirmed): on a fresh capacity-3 buffer with
`overwrite = true`, writing 1, 2, 3, 4 in order yields
`toArray = [4, 2, 3]`; a first `read` returns 4 and a second returns 2,
exactly as in the repository's README example. -/
theorem claim_C9_theorem :
    ((CircularBuffer.writeAll
        (CircularBuffer.mk0 3 ⟨true, true, false⟩ : CircularBuffer Nat)
        [1, 2, 3, 4]).toArray false).1 = [some 4, some 2, some 3] ∧
    ((CircularBuffer.writeAll
        (CircularBuffer.mk0 3 ⟨true, true, false⟩ : CircularBuffer Nat)
        [1, 2, 3, 4]).read).1 = some 4 ∧
    (((CircularBuffer.writeAll
        (CircularBuffer.mk0 3 ⟨true, true, false⟩ : CircularBuffer Nat)
        [1, 2, 3, 4]).read).2.read).1 = some 2 := by
  decide

/-- Claim C10 (confirmed): the constructor does not validate the
capacity: a capacity-0 buffer reports `isEmpty` and `isFull`
simultaneously, and its size stays 0 after any sequence of writes in
any configuration — the state is permanently "full", so the counter is
never incremented. -/
theorem claim_C10_theorem (T : Type) (cfg : CBConfig) :
    (CircularBuffer.mk0 0 cfg : CircularBuffer T).isEmpty = true ∧
    (CircularBuffer.mk0 0 cfg : CircularBuffer T).isFull = true ∧
    ∀ vs : List T, ((CircularBuffer.mk0 0 cfg : CircularBuffer T).writeAll vs).size = 0 := by
  refine ⟨rfl, rfl, fun vs => ?_⟩
  exact (writeAll_cap0 (CircularBuffer.mk0 0 cfg) vs rfl rfl).2

end CircBuf
